import Mathlib

/-!
Verification of the Table Reconciliation Engine
(`bot/utils/table_analyzer.py` and `bot/utils/scenario_applier.py`).

Shallow embedding conventions:
* A pandas `DataFrame` is a `Table`: an ordered list of column names and a
  list of rows; each row is a list of nullable cells aligned positionally
  with the column list (`none` models `NaN`).
* Cell values are a closed variant `Val` of integers and text, matching the
  value model of the spec (§3: nullability and equality are what matters;
  numeric subtypes are not distinguished).
* Python `set(...)` intersections/differences over column names or ids are
  modelled as `filter`/`dedup` over lists: membership and cardinality agree
  with Python sets; iteration order (unspecified for Python sets) is
  canonicalised to first-appearance order.  No theorem below depends on
  that order.
* Operations that can raise (`astype(int)` / `int(...)` on a non-numeric
  string) are modelled in `Except String`; the `try/except` wrapper of each
  scenario is the `match` in the corresponding `apply_scenario_N`.
* Row fingerprints (`df.astype(str).sum(axis=1).apply(hash)`) are modelled
  by the concatenated string itself: two fingerprints are equal iff the
  concatenated strings are (Python's `hash` applied on top is irrelevant to
  set cardinalities up to hash collisions, which the model ignores).
-/

namespace Tablet

/-- Cell values: integers or text (`bot` tables carry ids and names). -/
inductive Val where
  | vInt : Int → Val
  | vStr : String → Val
deriving DecidableEq, Repr

/-- Python `str(v)`. -/
def Val.toStr : Val → String
  | .vInt n => toString n
  | .vStr s => s

/-- Decimal digits to a number (`none` on a non-digit). -/
def parseNatAux : List Char → Nat → Option Nat
  | [], acc => some acc
  | c :: cs, acc =>
    if c.isDigit then parseNatAux cs (acc * 10 + (c.toNat - 48)) else none

/-- A non-empty all-digit character list to a number. -/
def parseNatDigits : List Char → Option Nat
  | [] => none
  | c :: cs => parseNatAux (c :: cs) 0

/-- Python `int(s)` on a string: an optionally `-`-signed decimal numeral
parses, anything else raises. -/
def strToInt (s : String) : Option Int :=
  match s.data with
  | '-' :: cs => (parseNatDigits cs).map (fun n => -(n : Int))
  | cs => (parseNatDigits cs).map (fun n => (n : Int))

/-- Python `int(v)` / `astype(int)`: integers pass through, decimal
strings parse, anything else raises. -/
def Val.toIntQ : Val → Option Int
  | .vInt n => some n
  | .vStr s => strToInt s

/-- A table: ordered column names and rows of nullable cells aligned
positionally with the columns (`none` = `NaN`). -/
structure Table where
  columns : List String
  rows : List (List (Option Val))
deriving DecidableEq, Repr

/-- Value of row `r` (laid out along `cols`) at column `c`; `none` when the
column is absent or the cell is null. -/
def rowCell (cols : List String) (r : List (Option Val)) (c : String) : Option Val :=
  match cols.findIdx? (fun c2 => c2 == c) with
  | some j => (r.get? j).getD none
  | none => none

/-- Cell of table `t` at row position `i`, column `c` (pandas `at[i, c]`). -/
def Table.cell (t : Table) (i : Nat) (c : String) : Option Val :=
  match t.rows.get? i with
  | some r => rowCell t.columns r c
  | none => none

/-- `list(set(old.columns) & set(new.columns))`, canonicalised to the old
table's column order. -/
def commonColumns (old new : Table) : List String :=
  old.columns.filter (fun c => decide (c ∈ new.columns))

/-- `str` of a cell; pandas `astype(str)` turns `NaN` into the text `nan`. -/
def cellStr : Option Val → String
  | some v => v.toStr
  | none => "nan"

/-- Row fingerprint: `df.astype(str).sum(axis=1)` concatenates the string
forms of the row's cells in the table's own column order
(`table_analyzer.py` lines 28-29). -/
def rowFingerprint (cols : List String) (r : List (Option Val)) : String :=
  String.join ((List.range cols.length).map (fun j => cellStr ((r.get? j).getD none)))

/-- One cell comparison of the change-detection loop
(`table_analyzer.py` lines 50-70). -/
def cellChange (idx : Nat) (c : String) (ov nv : Option Val) :
    Option (Nat × String × String × String) :=
  match ov, nv with
  | some a, some b => if a ≠ b then some (idx, c, a.toStr, b.toStr) else none
  | none, some b => some (idx, c, "NULL", b.toStr)
  | some a, none => some (idx, c, a.toStr, "NULL")
  | none, none => none

/-- `changed_data` (`table_analyzer.py` lines 39-70): positions
`0 .. min(|old|,|new|) - 1`, columns common to both tables. -/
def changedData (old new : Table) : List (Nat × String × String × String) :=
  (List.range (min old.rows.length new.rows.length)).flatMap (fun idx =>
    (commonColumns old new).filterMap (fun c =>
      cellChange idx c (old.cell idx c) (new.cell idx c)))

/-- The diff report (`analysis_result` dict, `table_analyzer.py` 72-91). -/
structure DiffReport where
  added_columns : List String
  removed_columns : List String
  common_columns : List String
  rows_added : Nat
  rows_removed : Nat
  rows_common : Nat
  total_old : Nat
  total_new : Nat
  changes : List (Nat × String × String × String)
deriving DecidableEq, Repr

/-- `TableAnalyzer.analyze_tables_diff` (`table_analyzer.py` lines 12-94).
Row counts compare the per-table fingerprint sets; nothing in the body can
raise in this model, so the `except` fallback (lines 96-104) is not
reachable. -/
def analyze_tables_diff (old new : Table) : DiffReport :=
  let oldH := (old.rows.map (rowFingerprint old.columns)).dedup
  let newH := (new.rows.map (rowFingerprint new.columns)).dedup
  { added_columns := (new.columns.filter (fun c => decide (c ∉ old.columns))).dedup
    removed_columns := (old.columns.filter (fun c => decide (c ∉ new.columns))).dedup
    common_columns := commonColumns old new
    rows_added := (newH.filter (fun h2 => decide (h2 ∉ oldH))).length
    rows_removed := (oldH.filter (fun h2 => decide (h2 ∉ newH))).length
    rows_common := (oldH.filter (fun h2 => decide (h2 ∈ newH))).length
    total_old := old.rows.length
    total_new := new.rows.length
    changes := changedData old new }

/-! ## ScenarioApplier (`scenario_applier.py`) -/

/-- `mapM` over `Except`, written as plain recursion so that length
preservation is provable by induction. -/
def exceptMapM (f : α → Except String β) : List α → Except String (List β)
  | [] => .ok []
  | a :: as =>
    match f a with
    | .error e => .error e
    | .ok b =>
      match exceptMapM f as with
      | .error e => .error e
      | .ok bs => .ok (b :: bs)

/-- All values of column `c` of `t`, nulls included (pandas `t[c]`). -/
def Table.colVals (t : Table) (c : String) : List (Option Val) :=
  match t.columns.findIdx? (fun c2 => c2 == c) with
  | some j => t.rows.map (fun r => (r.get? j).getD none)
  | none => []

/-- `t[c].dropna().astype(int)`: the non-null values of column `c`
converted to integers; raises on a non-numeric string. -/
def intColumn (t : Table) (c : String) : Except String (List Int) :=
  exceptMapM (fun v =>
      match Val.toIntQ v with
      | some n => Except.ok n
      | none => Except.error ("invalid literal for int: " ++ Val.toStr v))
    ((t.colVals c).filterMap id)

/-- Write value `v` into row `r` at column `c` (pandas `at[idx, c] = v`);
a no-op when the column is absent. -/
def setCell (cols : List String) (r : List (Option Val)) (c : String)
    (v : Option Val) : List (Option Val) :=
  match cols.findIdx? (fun c2 => c2 == c) with
  | some j => r.set j v
  | none => r

/-- Pandas `==` between a raw cell value and a Python int: strings never
equal integers. -/
def valEqInt (v : Val) (n : Int) : Bool :=
  match v with
  | .vInt m => m == n
  | .vStr _ => false

/-- `new_df[new_df['id'] == n].iloc[0]`: the first row of `t` whose raw
`id` cell equals the integer `n`. -/
def findRowById (t : Table) (n : Int) : Option (List (Option Val)) :=
  t.rows.find? (fun r =>
    match rowCell t.columns r "id" with
    | some w => valEqInt w n
    | none => false)

/-- The conflict-rule write at a contested cell (`scenario_applier.py`
lines 56-61, 118-123, 186-191): rules `B` and `C` both take the new value;
any other rule leaves the cell as it is (the source simply performs no
assignment then, which is the same row). -/
def applyConflictRule (rule : String) (cur newv : Option Val) : Option Val :=
  if rule = "B" then newv
  else if rule = "C" then newv
  else cur

/-- `name_mapping` (`scenario_applier.py` lines 44-49): id → `Имя` pairs
collected over the new table's rows in order; `int(row['id'])` raises on a
non-numeric string.  Later rows overwrite earlier ones in the Python dict,
which `dictLookup` reproduces by taking the last match. -/
def nameMappingRows (cols : List String) :
    List (List (Option Val)) → Except String (List (Int × Val))
  | [] => .ok []
  | r :: rs =>
    match rowCell cols r "id" with
    | none => nameMappingRows cols rs
    | some v =>
      match Val.toIntQ v with
      | none => .error ("invalid literal for int: " ++ Val.toStr v)
      | some n =>
        match nameMappingRows cols rs with
        | .error e => .error e
        | .ok m =>
          match rowCell cols r "Имя" with
          | some nm => .ok ((n, nm) :: m)
          | none => .ok m

/-- Dict lookup with last-entry-wins semantics. -/
def dictLookup (m : List (Int × Val)) (n : Int) : Option Val :=
  (m.reverse.find? (fun p => decide (p.1 = n))).map (fun p => p.2)

/-- One iteration of the conflict loop of Strategy 1 (`scenario_applier.py`
lines 52-61): rows whose integer id is in the name mapping get their `Имя`
cell resolved by the conflict rule. -/
def scenario1UpdateRow (cols : List String) (mapping : List (Int × Val))
    (rule : String) (r : List (Option Val)) : Except String (List (Option Val)) :=
  match rowCell cols r "id" with
  | none => .ok r
  | some v =>
    match Val.toIntQ v with
    | none => .error ("invalid literal for int: " ++ Val.toStr v)
    | some n =>
      match dictLookup mapping n with
      | none => .ok r
      | some nm =>
        .ok (setCell cols r "Имя" (applyConflictRule rule (rowCell cols r "Имя") (some nm)))

/-- Body of `ScenarioApplier.apply_scenario_1` (`scenario_applier.py`
lines 21-70), i.e. everything inside the `try`.  The row key is the
hard-coded column `id`; new rows are appended projected onto the common
columns; conflict resolution touches only the hard-coded column `Имя` and
only when at least one new row was found. -/
def scenario1Body (old new : Table) (rule : String) : Except String (Table × String) :=
  let common := commonColumns old new
  if common ≠ [] ∧ "id" ∈ common then
    match intColumn old "id", intColumn new "id" with
    | .ok oldIds, .ok newIds =>
      let newRowIds := newIds.dedup.filter (fun n => decide (n ∉ oldIds))
      if newRowIds ≠ [] then
        let appended := (new.rows.filter (fun r =>
            match rowCell new.columns r "id" with
            | some v => newRowIds.any (fun n => valEqInt v n)
            | none => false)).map (fun r =>
              old.columns.map (fun c =>
                if decide (c ∈ common) then rowCell new.columns r c else none))
        let rows1 := old.rows ++ appended
        let commonRowIds := oldIds.filter (fun n => decide (n ∈ newIds))
        let afterConflict : Except String (List (List (Option Val))) :=
          if commonRowIds ≠ [] ∧ rule ≠ "A" ∧ "Имя" ∈ common then
            match nameMappingRows new.columns new.rows with
            | .error e => .error e
            | .ok mapping => exceptMapM (scenario1UpdateRow old.columns mapping rule) rows1
          else .ok rows1
        match afterConflict with
        | .error e => .error e
        | .ok rows2 =>
          .ok (⟨old.columns, rows2⟩,
               "✅ Добавлено " ++ toString appended.length ++ " новых строк")
      else .ok (old, "✅ Новых строк для добавления не найдено")
    | .error e, _ => .error e
    | _, .error e => .error e
  else .ok (old, "⚠️ Нет общих столбцов для добавления строк")

/-- `ScenarioApplier.apply_scenario_1` with its `except` clause
(lines 72-74): any internal error yields the old table and an error text. -/
def apply_scenario_1 (old new : Table) (rule : String) : Table × String :=
  match scenario1Body old new rule with
  | .ok r => r
  | .error e => (old, "❌ Ошибка: " ++ e)

/-- One iteration of the fill loop of Strategy 2 (`scenario_applier.py`
lines 101-123): the matching new-table row fills the added columns and the
conflict rule resolves the hard-coded `Имя` column. -/
def scenario2Row (new : Table) (cols newCols common : List String) (rule : String)
    (r : List (Option Val)) : Except String (List (Option Val)) :=
  match rowCell cols r "id" with
  | none => .ok r
  | some v =>
    match Val.toIntQ v with
    | none => .error ("invalid literal for int: " ++ Val.toStr v)
    | some n =>
      match findRowById new n with
      | none => .ok r
      | some nr =>
        let r1 := newCols.foldl (fun acc c =>
          match rowCell new.columns nr c with
          | some w => setCell cols acc c (some w)
          | none => acc) r
        let r2 :=
          if "Имя" ∈ common ∧ rule ≠ "A" then
            match rowCell new.columns nr "Имя" with
            | some w =>
              setCell cols r1 "Имя" (applyConflictRule rule (rowCell cols r1 "Имя") (some w))
            | none => r1
          else r1
        .ok r2

/-- Body of `ScenarioApplier.apply_scenario_2` (`scenario_applier.py`
lines 87-127): old columns extended by the new-only columns (null-filled),
rows of the old table only. -/
def scenario2Body (old new : Table) (rule : String) : Except String (Table × String) :=
  let newCols := (new.columns.filter (fun c => decide (c ∉ old.columns))).dedup
  let cols := old.columns ++ newCols
  let rows0 := old.rows.map (fun r => cols.map (fun c => rowCell old.columns r c))
  let common := commonColumns old new
  let filled :=
    if common ≠ [] ∧ "id" ∈ common then
      exceptMapM (scenario2Row new cols newCols common rule) rows0
    else .ok rows0
  match filled with
  | .error e => .error e
  | .ok rows =>
    .ok (⟨cols, rows⟩, "✅ Добавлено " ++ toString newCols.length ++ " новых столбцов")

/-- `ScenarioApplier.apply_scenario_2` with its `except` clause
(lines 129-131). -/
def apply_scenario_2 (old new : Table) (rule : String) : Table × String :=
  match scenario2Body old new rule with
  | .ok r => r
  | .error e => (old, "❌ Ошибка: " ++ e)

/-- One iteration of the update loop of Strategy 3 (`scenario_applier.py`
lines 172-194): every non-null cell of the matching new-table row is
copied in; for the `Имя` column with a rule other than `A` the write goes
through the conflict rule (note that rule `A` therefore overwrites `Имя`
unconditionally via the `else` branch of line 192). -/
def scenario3Row (new : Table) (allCols : List String) (rule : String)
    (r : List (Option Val)) : Except String (List (Option Val)) :=
  match rowCell allCols r "id" with
  | none => .ok r
  | some v =>
    match Val.toIntQ v with
    | none => .error ("invalid literal for int: " ++ Val.toStr v)
    | some n =>
      match findRowById new n with
      | none => .ok r
      | some nr =>
        .ok (new.columns.foldl (fun acc c =>
          if decide (c ∈ allCols) then
            match rowCell new.columns nr c with
            | none => acc
            | some w =>
              if c = "Имя" ∧ rule ≠ "A" then
                setCell allCols acc c (applyConflictRule rule (rowCell allCols acc c) (some w))
              else
                setCell allCols acc c (some w)
          else acc) r)

/-- Column reordering and summary of Strategy 3 (`scenario_applier.py`
lines 221-227): `id`, `Имя`, `Фамилия` first, the remaining union columns
after, restricted to the columns actually present. -/
def scenario3Finish (allCols : List String) (rows : List (List (Option Val))) :
    Table × String :=
  let preferred :=
    ["id", "Имя", "Фамилия"] ++
      allCols.filter (fun c => decide (c ∉ (["id", "Имя", "Фамилия"] : List String)))
  let existing := preferred.filter (fun c => decide (c ∈ allCols))
  let finalRows := rows.map (fun r => existing.map (fun c => rowCell allCols r c))
  (⟨existing, finalRows⟩,
   "✅ Полное объединение: " ++ toString finalRows.length ++ " строк, " ++
     toString existing.length ++ " столбцов")

/-- Body of `ScenarioApplier.apply_scenario_3` (`scenario_applier.py`
lines 144-228): the full column union, existing rows updated from the new
table, unmatched new-table rows appended. -/
def scenario3Body (old new : Table) (rule : String) : Except String (Table × String) :=
  let allCols := old.columns ++ (new.columns.filter (fun c => decide (c ∉ old.columns))).dedup
  let rows0 := old.rows.map (fun r => allCols.map (fun c => rowCell old.columns r c))
  let common := commonColumns old new
  if common ≠ [] ∧ "id" ∈ common then
    match intColumn old "id", intColumn new "id" with
    | .ok oldIds, .ok newIds =>
      match exceptMapM (scenario3Row new allCols rule) rows0 with
      | .error e => .error e
      | .ok rows1 =>
        let newRowIds := newIds.dedup.filter (fun n => decide (n ∉ oldIds))
        let newRowsData := newRowIds.filterMap (fun n =>
          (findRowById new n).map (fun nr =>
            allCols.map (fun c => rowCell new.columns nr c)))
        .ok (scenario3Finish allCols (rows1 ++ newRowsData))
    | .error e, _ => .error e
    | _, .error e => .error e
  else .ok (scenario3Finish allCols rows0)

/-- `ScenarioApplier.apply_scenario_3` with its `except` clause
(lines 230-232). -/
def apply_scenario_3 (old new : Table) (rule : String) : Table × String :=
  match scenario3Body old new rule with
  | .ok r => r
  | .error e => (old, "❌ Ошибка: " ++ e)

/-- The two counts driving Strategy 4 (`scenario_applier.py`
lines 245-256): number of new-only columns and, when `id` exists on both
sides, number of distinct new ids absent from the old ids (else the new
table's row count). -/
def scenario4Counts (old new : Table) : Except String (Nat × Nat) :=
  let addedCols := ((new.columns.filter (fun c => decide (c ∉ old.columns))).dedup).length
  if "id" ∈ old.columns ∧ "id" ∈ new.columns then
    match intColumn old "id", intColumn new "id" with
    | .ok oldIds, .ok newIds =>
      .ok (addedCols, (newIds.dedup.filter (fun n => decide (n ∉ oldIds))).length)
    | .error e, _ => .error e
    | _, .error e => .error e
  else .ok (addedCols, new.rows.length)

/-- Body of `ScenarioApplier.apply_scenario_4` (`scenario_applier.py`
lines 243-273): the threshold dispatch to Strategies 3, 2 or 1. -/
def scenario4Body (old new : Table) (rule : String) : Except String (Table × String) :=
  match scenario4Counts old new with
  | .error e => .error e
  | .ok (ac, ar) =>
    if 2 ≤ ac ∧ 2 ≤ ar then
      let p := apply_scenario_3 old new rule
      .ok (p.1, "⚡ Умное объединение (полное): " ++ p.2)
    else if ar < ac then
      let p := apply_scenario_2 old new rule
      .ok (p.1, "⚡ Умное объединение (расширение): " ++ p.2)
    else
      let p := apply_scenario_1 old new rule
      .ok (p.1, "⚡ Умное объединение (добавление строк): " ++ p.2)

/-- `ScenarioApplier.apply_scenario_4` with its `except` clause
(lines 275-277). -/
def apply_scenario_4 (old new : Table) (rule : String) : Table × String :=
  match scenario4Body old new rule with
  | .ok r => r
  | .error e => (old, "❌ Ошибка: " ++ e)

/-- `ScenarioApplier.apply_scenario` (`scenario_applier.py` lines 280-293):
the dict dispatch on the strategy identifier, written as an if-chain. -/
def apply_scenario (scenario : String) (old new : Table) (rule : String) :
    Table × String :=
  if scenario = "1" then apply_scenario_1 old new rule
  else if scenario = "2" then apply_scenario_2 old new rule
  else if scenario = "3" then apply_scenario_3 old new rule
  else if scenario = "4" then apply_scenario_4 old new rule
  else (old, "❌ Неизвестный сценарий: " ++ scenario)

/-- The `try`-bodies of the four strategies under one dispatch; the unknown
branch never errors. -/
def scenarioBody (scenario : String) (old new : Table) (rule : String) :
    Except String (Table × String) :=
  if scenario = "1" then scenario1Body old new rule
  else if scenario = "2" then scenario2Body old new rule
  else if scenario = "3" then scenario3Body old new rule
  else if scenario = "4" then scenario4Body old new rule
  else .ok (old, "❌ Неизвестный сценарий: " ++ scenario)

/-! ## Helper lemmas -/

theorem mem_commonColumns (old new : Table) (c : String) :
    c ∈ commonColumns old new ↔ c ∈ old.columns ∧ c ∈ new.columns := by
  simp [commonColumns, List.mem_filter]

theorem exceptMapM_length {α β : Type} (f : α → Except String β) :
    ∀ (xs : List α) (ys : List β), exceptMapM f xs = Except.ok ys → ys.length = xs.length
  | [], ys, h => by
    simp only [exceptMapM] at h
    cases h
    rfl
  | a :: as, ys, h => by
    simp only [exceptMapM] at h
    cases hfa : f a with
    | error e => rw [hfa] at h; cases h
    | ok b =>
      rw [hfa] at h
      cases hrec : exceptMapM f as with
      | error e => rw [hrec] at h; cases h
      | ok bs =>
        rw [hrec] at h
        cases h
        simp [exceptMapM_length f as bs hrec]

theorem scenario2Body_rows (old new : Table) (rule : String) (t : Table) (m : String)
    (h : scenario2Body old new rule = Except.ok (t, m)) :
    t.rows.length = old.rows.length := by
  simp only [scenario2Body] at h
  split at h
  · exact Except.noConfusion h
  next rows heq =>
    cases h
    split at heq
    · calc rows.length
          = (old.rows.map _).length := exceptMapM_length _ _ rows heq
        _ = old.rows.length := List.length_map _ _
    · cases heq
      exact List.length_map _ _

/-! ## Concrete tables

`specOld`/`specNew` are the §8 scenario verbatim (columns `id`, `name`,
`age`); `imOld`/`imNew` are the same data with the name column called
`Имя`, the literal the source hard-codes; `badOld`/`badNew` carry a
non-numeric `id` cell, which makes `astype(int)` raise; `noIdOld`/`noIdNew`
share a column but have no `id` column. -/

def specOld : Table :=
  ⟨["id", "name"],
   [[some (.vInt 1), some (.vStr "A")],
    [some (.vInt 2), some (.vStr "B")]]⟩

def specNew : Table :=
  ⟨["id", "name", "age"],
   [[some (.vInt 1), some (.vStr "A2"), some (.vInt 30)],
    [some (.vInt 3), some (.vStr "C"), some (.vInt 40)]]⟩

def imOld : Table :=
  ⟨["id", "Имя"],
   [[some (.vInt 1), some (.vStr "A")],
    [some (.vInt 2), some (.vStr "B")]]⟩

def imNew : Table :=
  ⟨["id", "Имя", "age"],
   [[some (.vInt 1), some (.vStr "A2"), some (.vInt 30)],
    [some (.vInt 3), some (.vStr "C"), some (.vInt 40)]]⟩

def badOld : Table := ⟨["id"], [[some (.vStr "x")]]⟩

def badNew : Table := ⟨["id", "b"], [[some (.vInt 1), some (.vInt 2)]]⟩

def noIdOld : Table := ⟨["a"], [[some (.vStr "x")]]⟩

def noIdNew : Table := ⟨["a"], [[some (.vStr "y")]]⟩

/-! ## Claim C1 -/

/-- Claim C1, counterexample: on the §8 scenario exactly as written
(name column called `name`), Strategy 1 with rule `B` keeps the old name
`A` for id=1 — the conflict update is hard-coded to the column `Имя`,
which the scenario does not have, so the claimed value `A2` is wrong. -/
theorem c1_counterexample :
    apply_scenario "1" specOld specNew "B" =
      (⟨["id", "name"],
        [[some (.vInt 1), some (.vStr "A")],
         [some (.vInt 2), some (.vStr "B")],
         [some (.vInt 3), some (.vStr "C")]]⟩,
       "✅ Добавлено 1 новых строк") ∧
      ¬ (apply_scenario "1" specOld specNew "B").1.cell 0 "name" = some (.vStr "A2") := by
  constructor
  · rfl
  · decide

/-- Claim C1, amended: Strategy 1's conflict resolution is hard-coded to
key column `id` and contested column `Имя` and runs only when at least one
new row is appended; on the §8 data with the name column literally called
`Имя`, rule `B` updates the row for id=1 to name `A2` and appends the row
for id=3. -/
theorem c1_amended :
    apply_scenario "1" imOld imNew "B" =
      (⟨["id", "Имя"],
        [[some (.vInt 1), some (.vStr "A2")],
         [some (.vInt 2), some (.vStr "B")],
         [some (.vInt 3), some (.vStr "C")]]⟩,
       "✅ Добавлено 1 новых строк") := by
  rfl

/-! ## Claim C2 -/

/-- Claim C2, counterexample: on the §8 scenario `diff` reports
`rows_added_count = 2`, not `1` — each table is fingerprinted over its own
full column list, so the added `age` column changes every new-table
fingerprint. -/
theorem c2_counterexample :
    (analyze_tables_diff specOld specNew).rows_added = 2 ∧
      ¬ (analyze_tables_diff specOld specNew).rows_added = 1 := by
  constructor
  · rfl
  · decide

/-- Claim C2, amended: `diff` builds each row fingerprint over the row's
own table's full column list (no shared canonical ordering), so on the §8
scenario all fingerprints of the two tables differ:
`rows_added_count = 2`, `rows_removed_count = 2`, `rows_common_count = 0`
(while `columns_added = ["age"]` and `columns_removed = []` as claimed). -/
theorem c2_amended :
    (analyze_tables_diff specOld specNew).rows_added = 2 ∧
      (analyze_tables_diff specOld specNew).rows_removed = 2 ∧
      (analyze_tables_diff specOld specNew).rows_common = 0 ∧
      (analyze_tables_diff specOld specNew).added_columns = ["age"] ∧
      (analyze_tables_diff specOld specNew).removed_columns = [] := by
  exact ⟨rfl, rfl, rfl, rfl, rfl⟩

/-! ## Claim C3 -/

/-- Claim C3, counterexample: the merge entry point takes no key column at
all, and when the hard-coded key `id` is absent from the common columns
the request does not fail with any `InvalidKeyColumn` condition: Strategy 1
returns the old table with a warning summary — a normal, non-failing
result. -/
theorem c3_counterexample :
    apply_scenario "1" noIdOld noIdNew "A" =
      (noIdOld, "⚠️ Нет общих столбцов для добавления строк") := by
  rfl

/-- Claim C3, amended: the engine's merge API carries no `key_column`
(the row key is hard-coded to `id`), and when `id` is not common to both
tables Strategy 1 silently degrades to the old table with a warning
summary instead of failing. -/
theorem c3_amended (old new : Table) (rule : String)
    (h : "id" ∉ commonColumns old new) :
    apply_scenario "1" old new rule =
      (old, "⚠️ Нет общих столбцов для добавления строк") := by
  have h1 : apply_scenario "1" old new rule = apply_scenario_1 old new rule := rfl
  rw [h1]
  unfold apply_scenario_1 scenario1Body
  rw [if_neg (fun hc => h hc.2)]

/-- Claim C3, witness for the amended theorem. -/
theorem c3_amended_witness :
    "id" ∉ commonColumns noIdOld noIdNew ∧
      apply_scenario "1" noIdOld noIdNew "A" =
        (noIdOld, "⚠️ Нет общих столбцов для добавления строк") :=
  ⟨by decide, c3_amended noIdOld noIdNew "A" (by decide)⟩

/-! ## Claim C4 -/

/-- Claim C4: for every pair of input tables and every conflict rule,
Strategy 2 returns a table with exactly as many rows as the old table —
both on the normal path (the old rows are extended in place and the fill
loop is one-to-one) and on the internal-error path (the old table itself
is returned). -/
theorem c4_scenario2_row_count (old new : Table) (rule : String) :
    (apply_scenario "2" old new rule).1.rows.length = old.rows.length := by
  have h2 : apply_scenario "2" old new rule = apply_scenario_2 old new rule := rfl
  rw [h2]
  unfold apply_scenario_2
  cases h : scenario2Body old new rule with
  | error e => simp
  | ok r =>
    obtain ⟨t, m⟩ := r
    simpa using scenario2Body_rows old new rule t m h

/-! ## Claim C5 -/

theorem mem_scenario3Finish (allCols : List String) (rows : List (List (Option Val)))
    (c : String) : c ∈ (scenario3Finish allCols rows).1.columns ↔ c ∈ allCols := by
  simp only [scenario3Finish, List.mem_filter, List.mem_append, decide_eq_true_iff]
  constructor
  · rintro ⟨h1, h2⟩
    exact h2
  · intro h
    refine ⟨?_, h⟩
    by_cases h3 : c ∈ (["id", "Имя", "Фамилия"] : List String)
    · exact Or.inl h3
    · exact Or.inr (by simp [List.mem_filter, h, h3])

theorem mem_unionCols (old new : Table) (c : String) :
    c ∈ old.columns ++ (new.columns.filter (fun c2 => decide (c2 ∉ old.columns))).dedup ↔
      c ∈ old.columns ∨ c ∈ new.columns := by
  simp only [List.mem_append, List.mem_dedup, List.mem_filter, decide_eq_true_iff]
  tauto

theorem scenario3Body_columns (old new : Table) (rule : String) (t : Table) (m : String)
    (h : scenario3Body old new rule = Except.ok (t, m)) (c : String) :
    c ∈ t.columns ↔ c ∈ old.columns ∨ c ∈ new.columns := by
  simp only [scenario3Body] at h
  split at h
  · split at h
    next => split at h
            · exact Except.noConfusion h
            next => cases h
                    exact Iff.trans
                      (mem_scenario3Finish
                        (old.columns ++
                          (new.columns.filter (fun c2 => decide (c2 ∉ old.columns))).dedup)
                        _ c)
                      (mem_unionCols old new c)
    · exact Except.noConfusion h
    · exact Except.noConfusion h
  · cases h
    exact Iff.trans
      (mem_scenario3Finish
        (old.columns ++ (new.columns.filter (fun c2 => decide (c2 ∉ old.columns))).dedup)
        _ c)
      (mem_unionCols old new c)

/-- Claim C5, counterexample: with an old table whose `id` column holds
the non-numeric text `x`, Strategy 3's body raises in `astype(int)`, the
`except` clause returns the old table, and the output column set misses
the new table's column `b` — the column-union invariant does not hold for
every pair of inputs. -/
theorem c5_counterexample :
    "b" ∈ badNew.columns ∧ "b" ∉ (apply_scenario "3" badOld badNew "A").1.columns := by
  constructor
  · decide
  · decide

/-- Claim C5, amended: whenever Strategy 3's body completes without an
internal error (for instance, every non-null `id` cell parses as an
integer when `id` is a common column), the returned column set is exactly
the union of the old and new column sets; on an internal error the old
table is returned unchanged instead. -/
theorem c5_amended (old new : Table) (rule : String) (t : Table) (m : String)
    (h : scenario3Body old new rule = Except.ok (t, m)) (c : String) :
    c ∈ (apply_scenario "3" old new rule).1.columns ↔
      c ∈ old.columns ∨ c ∈ new.columns := by
  have h3 : apply_scenario "3" old new rule = apply_scenario_3 old new rule := rfl
  rw [h3]
  unfold apply_scenario_3
  rw [h]
  exact scenario3Body_columns old new rule t m h c

/-- Claim C5, witness for the amended theorem. -/
theorem c5_amended_witness :
    scenario3Body specOld specNew "A" = Except.ok
      (⟨["id", "name", "age"],
        [[some (.vInt 1), some (.vStr "A2"), some (.vInt 30)],
         [some (.vInt 2), some (.vStr "B"), none],
         [some (.vInt 3), some (.vStr "C"), some (.vInt 40)]]⟩,
       "✅ Полное объединение: 3 строк, 3 столбцов") ∧
      ("age" ∈ (apply_scenario "3" specOld specNew "A").1.columns ↔
        "age" ∈ specOld.columns ∨ "age" ∈ specNew.columns) :=
  ⟨rfl, c5_amended specOld specNew "A"
    ⟨["id", "name", "age"],
      [[some (.vInt 1), some (.vStr "A2"), some (.vInt 30)],
       [some (.vInt 2), some (.vStr "B"), none],
       [some (.vInt 3), some (.vStr "C"), some (.vInt 40)]]⟩
    "✅ Полное объединение: 3 строк, 3 столбцов" rfl "age"⟩

/-! ## Claim C6 -/

/-- Claim C6: Strategy 4's dispatch is a pure function of the two counts
`added_columns` and `added_rows`: whenever the counts are computed (no
internal error), the output is Strategy 3's when `added_columns ≥ 2` and
`added_rows ≥ 2`, Strategy 2's when `added_columns > added_rows`, and
Strategy 1's otherwise, each with the corresponding summary prefix; being
a function, two calls on identical inputs produce identical output. -/
theorem c6_scenario4_dispatch (old new : Table) (rule : String) (ac ar : Nat)
    (h : scenario4Counts old new = Except.ok (ac, ar)) :
    apply_scenario "4" old new rule =
      (if 2 ≤ ac ∧ 2 ≤ ar then
        ((apply_scenario_3 old new rule).1,
         "⚡ Умное объединение (полное): " ++ (apply_scenario_3 old new rule).2)
      else if ar < ac then
        ((apply_scenario_2 old new rule).1,
         "⚡ Умное объединение (расширение): " ++ (apply_scenario_2 old new rule).2)
      else
        ((apply_scenario_1 old new rule).1,
         "⚡ Умное объединение (добавление строк): " ++ (apply_scenario_1 old new rule).2)) := by
  have h4 : apply_scenario "4" old new rule = apply_scenario_4 old new rule := rfl
  rw [h4]
  unfold apply_scenario_4 scenario4Body
  simp only [h]
  split_ifs <;> rfl

/-- Claim C6, witness: on the §8 scenario the counts are `(1, 1)` and the
dispatch picks Strategy 1. -/
theorem c6_witness :
    scenario4Counts specOld specNew = Except.ok (1, 1) ∧
      apply_scenario "4" specOld specNew "A" =
        (if 2 ≤ 1 ∧ 2 ≤ 1 then
          ((apply_scenario_3 specOld specNew "A").1,
           "⚡ Умное объединение (полное): " ++ (apply_scenario_3 specOld specNew "A").2)
        else if 1 < 1 then
          ((apply_scenario_2 specOld specNew "A").1,
           "⚡ Умное объединение (расширение): " ++ (apply_scenario_2 specOld specNew "A").2)
        else
          ((apply_scenario_1 specOld specNew "A").1,
           "⚡ Умное объединение (добавление строк): " ++ (apply_scenario_1 specOld specNew "A").2)) :=
  ⟨rfl, c6_scenario4_dispatch specOld specNew "A" 1 1 rfl⟩

/-! ## Claim C8 -/

/-- Claim C8, counterexample: the conflict-rule identifier is never
validated — with the unknown rule `Z` the merge request is not rejected:
Strategy 1 runs to completion and reports a successful append. -/
theorem c8_counterexample :
    (apply_scenario "1" specOld specNew "Z").2 = "✅ Добавлено 1 новых строк" := by
  rfl

/-- Claim C8, amended: only unknown *strategy* identifiers are rejected —
`apply_scenario` returns the old table with an explicit
`Неизвестный сценарий` message for any strategy outside 1-4; unknown
conflict-rule identifiers are accepted silently and the merge proceeds
(a rule other than `B`/`C` simply never overwrites the contested column). -/
theorem c8_amended (s : String) (old new : Table) (rule : String)
    (h : ¬ (s = "1" ∨ s = "2" ∨ s = "3" ∨ s = "4")) :
    apply_scenario s old new rule = (old, "❌ Неизвестный сценарий: " ++ s) := by
  push_neg at h
  obtain ⟨h1, h2, h3, h4⟩ := h
  simp only [apply_scenario, if_neg h1, if_neg h2, if_neg h3, if_neg h4]

/-- Claim C8, witness for the amended theorem. -/
theorem c8_amended_witness :
    ¬ (("5" : String) = "1" ∨ ("5" : String) = "2" ∨ ("5" : String) = "3" ∨
        ("5" : String) = "4") ∧
      apply_scenario "5" specOld specNew "A" =
        (specOld, "❌ Неизвестный сценарий: " ++ "5") :=
  ⟨by decide, c8_amended "5" specOld specNew "A" (by decide)⟩

/-! ## Claim C10 -/

/-- Claim C10: whatever strategy is chosen, an internal error of the
strategy body never escapes: the `except` clause returns the old table
unchanged together with an error message. -/
theorem c10_error_degrades_to_old (s : String) (old new : Table) (rule e : String)
    (h : scenarioBody s old new rule = Except.error e) :
    apply_scenario s old new rule = (old, "❌ Ошибка: " ++ e) := by
  simp only [scenarioBody] at h
  simp only [apply_scenario]
  split_ifs at h ⊢
  · unfold apply_scenario_1
    rw [h]
  · unfold apply_scenario_2
    rw [h]
  · unfold apply_scenario_3
    rw [h]
  · unfold apply_scenario_4
    rw [h]

/-- Claim C10, witness: a non-numeric `id` cell makes Strategy 1's body
raise, and the caller receives the old table plus the error text. -/
theorem c10_witness :
    scenarioBody "1" badOld badNew "A" =
        Except.error "invalid literal for int: x" ∧
      apply_scenario "1" badOld badNew "A" =
        (badOld, "❌ Ошибка: " ++ "invalid literal for int: x") :=
  ⟨rfl, c10_error_degrades_to_old "1" badOld badNew "A" "invalid literal for int: x" rfl⟩

/-! ## Claim C9 -/

theorem applyConflictRule_BC :
    applyConflictRule "B" = applyConflictRule "C" := by
  funext cur newv
  rfl

theorem scenario1UpdateRow_BC (cols : List String) (m : List (Int × Val)) :
    scenario1UpdateRow cols m "B" = scenario1UpdateRow cols m "C" := by
  funext r
  simp only [scenario1UpdateRow, applyConflictRule_BC]

theorem scenario1Body_BC (old new : Table) :
    scenario1Body old new "B" = scenario1Body old new "C" := by
  simp only [scenario1Body, scenario1UpdateRow_BC,
    show (("B" : String) ≠ "A") = True from eq_true (by decide),
    show (("C" : String) ≠ "A") = True from eq_true (by decide)]

theorem apply_scenario_1_BC (old new : Table) :
    apply_scenario_1 old new "B" = apply_scenario_1 old new "C" := by
  simp only [apply_scenario_1, scenario1Body_BC]

theorem scenario2Row_BC (new : Table) (cols newCols common : List String) :
    scenario2Row new cols newCols common "B" = scenario2Row new cols newCols common "C" := by
  funext r
  simp only [scenario2Row, applyConflictRule_BC,
    show (("B" : String) ≠ "A") = True from eq_true (by decide),
    show (("C" : String) ≠ "A") = True from eq_true (by decide)]

theorem scenario2Body_BC (old new : Table) :
    scenario2Body old new "B" = scenario2Body old new "C" := by
  simp only [scenario2Body, scenario2Row_BC]

theorem apply_scenario_2_BC (old new : Table) :
    apply_scenario_2 old new "B" = apply_scenario_2 old new "C" := by
  simp only [apply_scenario_2, scenario2Body_BC]

theorem scenario3Row_BC (new : Table) (allCols : List String) :
    scenario3Row new allCols "B" = scenario3Row new allCols "C" := by
  funext r
  simp only [scenario3Row, applyConflictRule_BC,
    show (("B" : String) ≠ "A") = True from eq_true (by decide),
    show (("C" : String) ≠ "A") = True from eq_true (by decide)]

theorem scenario3Body_BC (old new : Table) :
    scenario3Body old new "B" = scenario3Body old new "C" := by
  simp only [scenario3Body, scenario3Row_BC]

theorem apply_scenario_3_BC (old new : Table) :
    apply_scenario_3 old new "B" = apply_scenario_3 old new "C" := by
  simp only [apply_scenario_3, scenario3Body_BC]

theorem scenario4Body_BC (old new : Table) :
    scenario4Body old new "B" = scenario4Body old new "C" := by
  simp only [scenario4Body, apply_scenario_1_BC, apply_scenario_2_BC, apply_scenario_3_BC]

theorem apply_scenario_4_BC (old new : Table) :
    apply_scenario_4 old new "B" = apply_scenario_4 old new "C" := by
  simp only [apply_scenario_4, scenario4Body_BC]

/-- Claim C9: conflict rules `B` and `C` are behaviourally equivalent —
for every strategy identifier (the four real ones and even unknown ones)
and every pair of tables the merge results coincide, because every
conflict-resolution site treats `B` and `C` by the same assignment. -/
theorem c9_rules_B_C_equivalent (s : String) (old new : Table) :
    apply_scenario s old new "B" = apply_scenario s old new "C" := by
  simp only [apply_scenario]
  split_ifs
  · exact apply_scenario_1_BC old new
  · exact apply_scenario_2_BC old new
  · exact apply_scenario_3_BC old new
  · exact apply_scenario_4_BC old new
  · rfl

/-! ## Claim C7 -/

/-- Claim C7: the diff's changed-cells list has an entry at row position
`idx` and column `c` exactly when `idx` is below `min(|old|, |new|)`, `c`
is common to both tables, and either exactly one side's cell is null or
both are non-null and unequal. -/
theorem c7_changed_cells_iff (old new : Table) (idx : Nat) (c : String) :
    (∃ ov nv, (idx, c, ov, nv) ∈ (analyze_tables_diff old new).changes) ↔
      (idx < min old.rows.length new.rows.length ∧
        (c ∈ old.columns ∧ c ∈ new.columns) ∧
        ((old.cell idx c = none ∧ new.cell idx c ≠ none) ∨
         (old.cell idx c ≠ none ∧ new.cell idx c = none) ∨
         (∃ a b, old.cell idx c = some a ∧ new.cell idx c = some b ∧ a ≠ b))) := by
  have hch : (analyze_tables_diff old new).changes = changedData old new := rfl
  rw [hch]
  constructor
  · rintro ⟨ov, nv, hm⟩
    simp only [changedData, List.mem_flatMap, List.mem_range, List.mem_filterMap] at hm
    obtain ⟨i, hi, c2, hc2, hcc⟩ := hm
    cases h1 : old.cell i c2 with
    | none =>
      cases h2 : new.cell i c2 with
      | none =>
        rw [h1, h2] at hcc
        exact Option.noConfusion hcc
      | some b =>
        rw [h1, h2] at hcc
        simp only [cellChange, Option.some.injEq, Prod.mk.injEq] at hcc
        obtain ⟨hie, hce, _, _⟩ := hcc
        refine ⟨hie ▸ hi, (mem_commonColumns old new c).1 (hce ▸ hc2), Or.inl ⟨?_, ?_⟩⟩
        · rw [← hie, ← hce]
          exact h1
        · rw [← hie, ← hce, h2]
          exact fun hx => Option.noConfusion hx
    | some a =>
      cases h2 : new.cell i c2 with
      | none =>
        rw [h1, h2] at hcc
        simp only [cellChange, Option.some.injEq, Prod.mk.injEq] at hcc
        obtain ⟨hie, hce, _, _⟩ := hcc
        refine ⟨hie ▸ hi, (mem_commonColumns old new c).1 (hce ▸ hc2),
          Or.inr (Or.inl ⟨?_, ?_⟩)⟩
        · rw [← hie, ← hce, h1]
          exact fun hx => Option.noConfusion hx
        · rw [← hie, ← hce]
          exact h2
      | some b =>
        rw [h1, h2] at hcc
        simp only [cellChange] at hcc
        split at hcc
        next hab =>
          simp only [Option.some.injEq, Prod.mk.injEq] at hcc
          obtain ⟨hie, hce, _, _⟩ := hcc
          refine ⟨hie ▸ hi, (mem_commonColumns old new c).1 (hce ▸ hc2),
            Or.inr (Or.inr ⟨a, b, ?_, ?_, hab⟩)⟩
          · rw [← hie, ← hce]
            exact h1
          · rw [← hie, ← hce]
            exact h2
        next => exact Option.noConfusion hcc
  · rintro ⟨hlt, ⟨hco, hcn⟩, hcond⟩
    have hc : c ∈ commonColumns old new := (mem_commonColumns old new c).2 ⟨hco, hcn⟩
    rcases hcond with ⟨h1, h2⟩ | ⟨h1, h2⟩ | ⟨a, b, h1, h2, hab⟩
    · obtain ⟨b, hb⟩ := Option.ne_none_iff_exists'.1 h2
      refine ⟨"NULL", b.toStr, ?_⟩
      simp only [changedData, List.mem_flatMap, List.mem_range, List.mem_filterMap]
      exact ⟨idx, hlt, c, hc, by rw [h1, hb]; rfl⟩
    · obtain ⟨a, ha⟩ := Option.ne_none_iff_exists'.1 h1
      refine ⟨a.toStr, "NULL", ?_⟩
      simp only [changedData, List.mem_flatMap, List.mem_range, List.mem_filterMap]
      exact ⟨idx, hlt, c, hc, by rw [ha, h2]; rfl⟩
    · refine ⟨a.toStr, b.toStr, ?_⟩
      simp only [changedData, List.mem_flatMap, List.mem_range, List.mem_filterMap]
      exact ⟨idx, hlt, c, hc, by rw [h1, h2]; simp [cellChange, hab]⟩

end Tablet
